import Mathlib

/-
Verification development for the terminal-interaction and process-supervision
subsystem of the subtitle-generator repository (tools/simple_tui.py).

The Python source is shallowly embedded: each relevant Python function becomes
an executable Lean definition over explicit state; OS facilities the code uses
(POSIX wait-status words, signal delivery targets, output channels, the
filesystem probe behind Path.exists) are modelled as explicit parameters or
small algebraic types.
-/

namespace STui

/-! ## String helpers

`strStarts p s` models Python `s.startswith(p)` and `strHasSub n s` models
Python `n in s`, both computed structurally over the character lists. -/

def listStarts : List Char → List Char → Bool
  | [], _ => true
  | _ :: _, [] => false
  | a :: as, b :: bs => a == b && listStarts as bs

def listHasSub (n : List Char) : List Char → Bool
  | [] => listStarts n []
  | c :: cs => listStarts n (c :: cs) || listHasSub n cs

def strStarts (p s : String) : Bool := listStarts p.data s.data

def strHasSub (n s : String) : Bool := listHasSub n.data s.data

/-- A run of `n` space characters, as produced by Python `" " * n`. -/
def spaces (n : Nat) : String := String.mk (List.replicate n ' ')

/-! ## Traceback suppression filter (simple_tui.py lines 322-335) -/

/-- The mutable dict `suppress_traceback = {"on": ..., "in_tb": ...}`. -/
structure Suppress where
  sup_on : Bool
  in_tb : Bool
deriving DecidableEq

/-- Embedding of `_process_traceback_line(line, suppress_traceback)`:
returns the (possibly emptied) line together with the updated dict state. -/
def process_traceback_line (line : String) (s : Suppress) : String × Suppress :=
  if ¬ s.sup_on then (line, s)
  else if strStarts "Traceback (most recent call last):" line then
    ("", { sup_on := s.sup_on, in_tb := true })
  else if strHasSub "KeyboardInterrupt" line then
    ("", { sup_on := s.sup_on, in_tb := false })
  else if s.in_tb then ("", s)
  else (line, s)

/-- The traceback filter as the specification words it (one committed line,
state = the "inside block" flag, `none` = line dropped): a line opening a
stack-trace block sets the flag and is dropped; while the flag is set every
line is dropped, a line containing the interrupt marker clearing the flag;
outside the block an interrupt-marker line clears the flag and is dropped;
every other line passes through unchanged. -/
def specTracebackFilter (line : String) (inside : Bool) : Option String × Bool :=
  if strStarts "Traceback (most recent call last):" line then (none, true)
  else if inside then
    (none, if strHasSub "KeyboardInterrupt" line then false else true)
  else if strHasSub "KeyboardInterrupt" line then (none, false)
  else (some line, inside)

/-! ## CR-aware relay (`_stream_output`, simple_tui.py lines 338-373)

State of the streaming loop: `last_len` and `acc` are the local variables of
`_stream_output`; `sup` is the `suppress_traceback` dict shared with the
signal handler; `writes` records every `sys.stdout.write(...)` argument in
order. -/
structure StreamSt where
  last_len : Nat
  acc : String
  sup : Suppress
  writes : List String
deriving DecidableEq

/-- One iteration of the `for ch in text` loop of `_stream_output`. -/
def streamChar (st : StreamSt) (c : Char) : StreamSt :=
  if c = '\r' then
    let ws := if ¬ st.sup.sup_on ∨ ¬ st.sup.in_tb
      then st.writes ++ ["\r" ++ st.acc] else st.writes
    { last_len := st.acc.length, acc := "", sup := st.sup, writes := ws }
  else if c = '\n' then
    let clear := spaces (st.last_len - st.acc.length)
    let ls := process_traceback_line st.acc st.sup
    let ws := if ls.1 ≠ "" then st.writes ++ ["\r" ++ ls.1 ++ clear ++ "\n"]
      else st.writes
    { last_len := 0, acc := "", sup := ls.2, writes := ws }
  else
    { last_len := st.last_len, acc := st.acc.push c, sup := st.sup,
      writes := st.writes }

/-- One iteration of the `while True` chunk loop of `_stream_output`: process
every character of the decoded chunk, then perform the trailing
partial-line write `if acc:`. -/
def streamChunk (st : StreamSt) (chunk : String) : StreamSt :=
  let st1 := chunk.data.foldl streamChar st
  if st1.acc ≠ "" then
    let clear := spaces (st1.last_len - st1.acc.length)
    let ws := if ¬ st1.sup.sup_on ∨ ¬ st1.sup.in_tb
      then st1.writes ++ ["\r" ++ st1.acc ++ clear] else st1.writes
    { last_len := st1.acc.length, acc := st1.acc, sup := st1.sup, writes := ws }
  else st1

/-- Initial suppression state built in `run_and_stream` (line 395). -/
def run_and_stream_suppress0 : Suppress := { sup_on := false, in_tb := false }

/-- `_stream_output` on a list of chunks read from the child, starting from
the initial state of `run_and_stream`. -/
def stream_output (chunks : List String) : StreamSt :=
  chunks.foldl streamChunk
    { last_len := 0, acc := "", sup := run_and_stream_suppress0, writes := [] }

/-! ## Terminal rendering model

Interprets a sequence of written strings by the rules of a terminal display
(spec section 4.4.1 and glossary): a carriage return repositions the cursor to
column 0 of the current line, a newline commits the current line, any other
character overwrites the cell at the cursor column. Used to state what is
actually visible after the relay's writes. -/

def writeAt : List Char → Nat → Char → List Char
  | _ :: xs, 0, c => c :: xs
  | [], 0, c => [c]
  | [], Nat.succ k, c => ' ' :: writeAt [] k c
  | x :: xs, Nat.succ k, c => x :: writeAt xs k c

structure Term where
  done : List String
  cur : List Char
  col : Nat
deriving DecidableEq

def termChar (t : Term) (c : Char) : Term :=
  if c = '\r' then { done := t.done, cur := t.cur, col := 0 }
  else if c = '\n' then
    { done := t.done ++ [String.mk t.cur], cur := [], col := 0 }
  else
    { done := t.done, cur := writeAt t.cur t.col c, col := t.col + 1 }

def renderWrites (ws : List String) : Term :=
  ws.foldl (fun t w => w.data.foldl termChar t) { done := [], cur := [], col := 0 }

/-! ## Menu navigation (`_handle_navigation_key`, simple_tui.py lines 95-105)

Indices are Python ints; Python `%` on a positive divisor is `Int.emod`,
which is what `%` denotes on `Int` in Lean. -/

/-- Embedding of `_handle_navigation_key(key, idx, max_index)`. -/
def handle_navigation_key (key : String) (idx : Int) (maxIndex : Int) : Option Int :=
  if key = "UP" ∨ key = "k" then some ((idx - 1) % (maxIndex + 1))
  else if key = "DOWN" ∨ key = "j" then some ((idx + 1) % (maxIndex + 1))
  else if key = "LEFT" ∨ key = "h" then some (max 0 (idx - 1))
  else if key = "RIGHT" ∨ key = "l" then some (min maxIndex (idx + 1))
  else none

/-- Result of one `choose_keyed` invocation: a chosen index, the `sys.exit(0)`
taken on Escape or q, or running out of scripted keys/input lines. -/
inductive ChooseOutcome
  | chosen (i : Int)
  | exitZero
  | blocked
deriving DecidableEq

/-- The interactive `while True` loop of `choose_keyed` (lines 140-150),
driven by a scripted list of keys as returned by `read_key`. -/
def choose_keyed_loop : List String → Int → Int → ChooseOutcome
  | [], _, _ => ChooseOutcome.blocked
  | key :: rest, idx, maxIdx =>
    match handle_navigation_key key idx maxIdx with
    | some j => choose_keyed_loop rest j maxIdx
    | none =>
      if key = "ENTER" then ChooseOutcome.chosen idx
      else if key = "ESC" ∨ key = "q" then ChooseOutcome.exitZero
      else choose_keyed_loop rest idx maxIdx

/-! ## Numbered-list fallback (`prompt_choice`, simple_tui.py lines 155-172) -/

/-- Drop leading whitespace characters. -/
def dropWhileWs : List Char → List Char
  | [] => []
  | c :: cs => if c.isWhitespace then dropWhileWs cs else c :: cs

/-- Python `s.strip()`: remove whitespace from both ends. -/
def pyStrip (s : String) : String :=
  String.mk (dropWhileWs (dropWhileWs s.data).reverse).reverse

/-- Python `s.isdigit()` for ASCII input: nonempty and all digits. -/
def isDigitStr (s : String) : Bool := s ≠ "" && s.data.all Char.isDigit

/-- Numeric value of a digit string, as Python `int(raw)`. -/
def natOfDigits (s : String) : Nat :=
  s.data.foldl (fun n c => n * 10 + (c.toNat - 48)) 0

/-- Embedding of the `while True` input loop of `prompt_choice`: `inputs` is
the script of lines returned by `input()` (already newline-stripped), each
then passed through `.strip()`; `none` models blocking on exhausted input.
Python computes `idx = int(raw) - 1` over ints, so the bound check is stated
over `Int` (`int("0") - 1 = -1` is rejected, not clamped). -/
def prompt_choice : List String → List String → Option Nat → Option Nat
  | [], _, _ => none
  | raw :: rest, options, dflt =>
    let r := pyStrip raw
    if r = "" ∧ dflt.isSome then dflt
    else if isDigitStr r then
      let idx : Int := (natOfDigits r : Int) - 1
      if 0 ≤ idx ∧ idx < (options.length : Int) then some idx.toNat
      else prompt_choice rest options dflt
    else prompt_choice rest options dflt

/-- Embedding of `choose_keyed` (lines 123-152): `interactive` is the value of
`sys.stdin.isatty() and sys.stdout.isatty()`; when false the call degrades to
`prompt_choice(question, options, default_index=idx)`, otherwise it runs the
arrow-key loop. -/
def choose_keyed (interactive : Bool) (keys : List String) (inputs : List String)
    (options : List String) (idx : Nat) : ChooseOutcome :=
  if ¬ interactive then
    match prompt_choice inputs options (some idx) with
    | some i => ChooseOutcome.chosen (i : Int)
    | none => ChooseOutcome.blocked
  else choose_keyed_loop keys (idx : Int) ((options.length : Int) - 1)

/-! ## Interrupt escalation (simple_tui.py lines 295-319 and 427-453)

Signal delivery is modelled by its observable request: which target the
signal is aimed at (the child's process group, or the child process alone as
`proc.terminate()` / `proc.kill()` / `os.kill` do) and which signal number. -/

inductive Target
  | group
  | childOnly
deriving DecidableEq

structure KillEv where
  target : Target
  sig : Nat
deriving DecidableEq

def SIGTERM : Nat := 15

def SIGKILL : Nat := 9

/-- Observable effect of one `handle_sigint` call installed by
`_setup_signal_handler` (pipe strategy): the new `interrupted["count"]`,
whether the notice line was written to stderr, whether
`suppress_traceback["on"]` was set, and the signal request issued. -/
structure PipeSigResult where
  count : Nat
  notice : Bool
  setSuppress : Bool
  sent : Option KillEv
deriving DecidableEq

/-- Embedding of the pipe-strategy `handle_sigint` (lines 299-316).
`hasKillpg` is `hasattr(os, "killpg")`; on the first interrupt the graceful
signal goes to the process group when available, else `proc.terminate()`;
on any later interrupt `proc.kill()` delivers SIGKILL to the child alone. -/
def handle_sigint_pipe (hasKillpg : Bool) (count : Nat) : PipeSigResult :=
  let c := count + 1
  if c = 1 then
    { count := c, notice := true, setSuppress := true,
      sent := some { target := if hasKillpg then Target.group else Target.childOnly,
                     sig := SIGTERM } }
  else
    { count := c, notice := false, setSuppress := false,
      sent := some { target := Target.childOnly, sig := SIGKILL } }

/-- Embedding of `_kill_process(pid, sig)` (lines 427-435): try
`os.killpg`, fall back to `os.kill` on the child alone; `killpgOk` says
whether the group signal succeeds. -/
def kill_process (killpgOk : Bool) (sig : Nat) : KillEv :=
  { target := if killpgOk then Target.group else Target.childOnly, sig := sig }

/-- Observable effect of one PTY-strategy `handle_sigint` call. -/
structure PtySigResult where
  count : Nat
  notice : Bool
  sent : KillEv
deriving DecidableEq

/-- Embedding of the PTY-strategy `handle_sigint` installed by
`_setup_pty_signal_handler` (lines 442-449). -/
def handle_sigint_pty (killpgOk : Bool) (count : Nat) : PtySigResult :=
  let c := count + 1
  if c = 1 then { count := c, notice := true, sent := kill_process killpgOk SIGTERM }
  else { count := c, notice := false, sent := kill_process killpgOk SIGKILL }

/-! ## Exit status mapping (simple_tui.py lines 376-406 and 456-477)

The POSIX wait(2) status word, as decoded by the `os` module on Linux:
low 7 bits are the terminating signal (0 for a normal exit), bits 8-15 the
exit status. -/

def WIFEXITED (s : Nat) : Bool := s % 128 == 0

def WEXITSTATUS (s : Nat) : Nat := s / 256 % 256

def WTERMSIG (s : Nat) : Nat := s % 128

/-- The exit code computed by `_stream_pty_output` (line 476):
`os.WEXITSTATUS(status) if os.WIFEXITED(status) else 130`. -/
def stream_pty_exit (status : Nat) : Nat :=
  if WIFEXITED status then WEXITSTATUS status else 130

/-- `subprocess.Popen.returncode`: the exit status for a normal exit, the
negated signal number when the child was killed by a signal. -/
def popen_returncode (status : Nat) : Int :=
  if WIFEXITED status then (WEXITSTATUS status : Int) else -(WTERMSIG status : Int)

/-- The value returned by `run_and_stream` in the pipe strategy (line 406):
`int(proc.returncode or 0)`. -/
def run_and_stream_result (status : Nat) : Int :=
  if popen_returncode status = 0 then 0 else popen_returncode status

/-! ## Spawn failure (simple_tui.py lines 389-394 and 489-495) -/

/-- Output channel of a write: `print` and `sys.stdout.write` go to `out`,
`sys.stderr.write` to `err`. -/
inductive Chan
  | out
  | err
deriving DecidableEq

/-- The pipe-strategy spawn-failure path of `run_and_stream` (lines 384-394):
the banner is printed, `_create_subprocess` raises `FileNotFoundError`, an
explanatory message is printed (via `print`, hence on stdout) and 127 is
returned. `argsLine` stands for the quoted argument tail of the banner. -/
def run_and_stream_spawn_failure (program : String) (argsLine : String) :
    Int × List (Chan × String) :=
  (127,
    [(Chan.out, "\n"), (Chan.out, "Running:\n"),
     (Chan.out, "$ " ++ program ++ argsLine ++ "\n"), (Chan.out, "\n"),
     (Chan.out, "Error: failed to spawn '" ++ program ++ "'. Is it installed?\n")])

/-- OS-level inputs consumed by one iteration of `_stream_pty_output`
(lines 456-477): whether `select` reports the PTY master fd readable within
the 0.1 s timeout, the bytes `os.read` yields when it is (an `OSError`, e.g.
EIO once the child has closed the slave side, surfaces as the empty string
via the `except` branch), and the `os.waitpid(pid, WNOHANG)` outcome —
`reaped` true when the child is reported done, with its wait status (the
`ChildProcessError` branch behaves as reaped with status 0). -/
structure PtyIoEvent where
  readable : Bool
  dataRead : String
  reaped : Bool
  status : Nat
deriving DecidableEq

/-- Embedding of `_stream_pty_output(fd, pid)` (lines 456-477): the exit
code it returns (`none` = the Python `return None`) paired with the bytes it
relays to stdout in this iteration. The control flow is the source's: when
the fd is readable and the read comes back empty, `if not data: return None`
(lines 464-465) exits the function before the `waitpid` poll is reached;
`waitpid` runs only after a non-empty read or when the fd was not readable. -/
def stream_pty_output (ev : PtyIoEvent) : Option Nat × List String :=
  if ev.readable then
    if ev.dataRead = "" then (none, [])
    else if ev.reaped then (some (stream_pty_exit ev.status), [ev.dataRead])
    else (none, [ev.dataRead])
  else if ev.reaped then (some (stream_pty_exit ev.status), [])
  else (none, [])

/-- The `while True` relay loop of `_run_with_pty` (lines 500-505) run over
a finite window of iterations, accumulating the relayed bytes: `some code`
once `_stream_pty_output` delivers an exit code, `none` while the loop is
still running after all observed iterations. -/
def run_pty_loop : List PtyIoEvent → List String → Option Nat × List String
  | [], acc => (none, acc)
  | ev :: rest, acc =>
    match stream_pty_output ev with
    | (some code, out) => (some code, acc ++ out)
    | (none, out) => run_pty_loop rest (acc ++ out)

/-! ## SIGINT handler install/restore (simple_tui.py lines 318, 451-453, 506-507)

The process-global SIGINT disposition is modelled as a value; each run's
`signal.signal(signal.SIGINT, ...)` calls are recorded in order and folded
over the prior disposition to obtain the state after the run. -/

inductive SigHandler
  | external (id : Nat)
  | pipeSup
  | ptySup
deriving DecidableEq

/-- Sequence of `signal.signal(SIGINT, ...)` installs performed during one
pipe-strategy run: `_setup_signal_handler` installs its closure (line 318);
`run_and_stream` contains no restoring call on any path. -/
def run_and_stream_sigint_calls (_h0 : SigHandler) : List SigHandler :=
  [SigHandler.pipeSup]

/-- Sequence of installs performed during one PTY-strategy run:
`_setup_pty_signal_handler` saves the old handler and installs its closure
(lines 451-452); the `finally` of `_run_with_pty` restores it (line 507). -/
def run_with_pty_sigint_calls (h0 : SigHandler) : List SigHandler :=
  [SigHandler.ptySup, h0]

/-- The SIGINT disposition left installed after a sequence of installs. -/
def finalHandler (h0 : SigHandler) (calls : List SigHandler) : SigHandler :=
  calls.foldl (fun _ h => h) h0

/-! ## Command building (simple_tui.py lines 204-253)

Paths are lists of components below the filesystem root (`Path.parent` drops
the last component; at the root `cur.parent == cur`). The filesystem is the
predicate `fs dir = (dir / "pyproject.toml").exists()`. -/

/-- The bounded `for _ in range(6)` ancestor walk of `find_pyproject_dir`. -/
def find_pyproject_go (fs : List String → Bool) : Nat → List String → Option (List String)
  | 0, _ => none
  | Nat.succ k, cur =>
    if fs cur then some cur
    else if cur = [] then none
    else find_pyproject_go fs k cur.dropLast

/-- Embedding of `find_pyproject_dir(start)` (lines 204-212). -/
def find_pyproject_dir (fs : List String → Bool) (start : List String) :
    Option (List String) :=
  find_pyproject_go fs 6 start

/-- Python truthiness of an optional string (`if yt_url:`). -/
def truthy (o : Option String) : Bool :=
  match o with
  | some s => s ≠ ""
  | none => false

/-- Python `o or d` for an optional string. -/
def orDefault (o : Option String) (d : String) : String :=
  match o with
  | some s => if s = "" then d else s
  | none => d

/-- Embedding of `build_command` (lines 215-253). Beyond the wizard answers
it takes the external state the Python function reads: the filesystem
predicate `fs` and `Path.cwd()`. -/
def build_command (fs : List String → Bool) (cwd : List String)
    (mode_local : Bool) (src_path : String) (yt_url : Option String)
    (lang_code : String) (overwrite : Bool) (burn_in : Bool)
    (burn_use : Option String) (burn_format : Option String) :
    String × List String × Option (List String) :=
  let repo := find_pyproject_dir fs cwd
  let program := if repo.isSome then "uv" else "subtitle-gen"
  let args : List String := if repo.isSome then ["run", "subtitle-gen"] else []
  let args := if mode_local then args ++ ["--src", src_path]
    else (if truthy yt_url then args ++ ["--yt", Option.getD yt_url ""] else args)
      ++ ["--src", src_path]
  let args := if lang_code ≠ "" then args ++ ["--lang", lang_code] else args
  let args := if overwrite then args ++ ["--overwrite"] else args
  let args := if burn_in then
      args ++ ["--burn-in", "--burn-use", orDefault burn_use "translated",
               "--burn-format", orDefault burn_format "mp4"]
    else args
  (program, args, repo)

/-! ## Claim theorems -/

/-- C1 counterexample: the claim demands that on each newline (suppression
inactive) the relay writes carriage return + pending line + padding + newline,
so the byte stream consisting of a single newline would have to produce the
write "\r\n"; the code's `if line:` guard writes nothing for an empty
committed line. -/
theorem C1_counterexample :
    (stream_output ["\n"]).writes = [] ∧ ([] : List String) ≠ ["\r\n"] := by
  decide

/-- C1 (amended): in pipe mode with suppression inactive, on each newline
whose committed line is non-empty the relay writes exactly "\r" + pending
line + max(0, last_rendered_length - len(pending)) spaces + "\n" and resets
the accumulator and last_rendered_length; on a newline with an empty
committed line it performs the same resets but writes nothing. The child
bytes "A\rBB\n" yield the writes "\rA" then "\rBB\n" (zero padding) and a
rendered display whose single committed line is "BB" with no leftover "A". -/
theorem C1_newline_commit :
    (∀ st : StreamSt, st.sup.sup_on = false → st.acc ≠ "" →
      streamChar st '\n' =
        { last_len := 0, acc := "", sup := st.sup,
          writes := st.writes ++
            ["\r" ++ st.acc ++ spaces (st.last_len - st.acc.length) ++ "\n"] })
    ∧ (∀ st : StreamSt, st.sup.sup_on = false → st.acc = "" →
      streamChar st '\n' =
        { last_len := 0, acc := "", sup := st.sup, writes := st.writes })
    ∧ (stream_output ["A\rBB\n"]).writes = ["\rA", "\rBB\n"]
    ∧ renderWrites (stream_output ["A\rBB\n"]).writes =
        { done := ["BB"], cur := [], col := 0 } := by
  refine ⟨?_, ?_, by decide, by decide⟩
  · intro st h1 h2
    have hp : process_traceback_line st.acc st.sup = (st.acc, st.sup) := by
      simp [process_traceback_line, h1]
    simp [streamChar, hp, h2]
  · intro st h1 h2
    have hp : process_traceback_line "" st.sup = ("", st.sup) := by
      simp [process_traceback_line, h1]
    simp [streamChar, h2, hp]

/-- C1 witness: the newline rule of `C1_newline_commit` evaluated at the
concrete state last_len = 3, pending line "BB". -/
theorem C1_newline_commit_witness :
    streamChar { last_len := 3, acc := "BB",
                 sup := { sup_on := false, in_tb := false }, writes := [] } '\n' =
      { last_len := 0, acc := "",
        sup := { sup_on := false, in_tb := false },
        writes := [] ++ ["\r" ++ "BB" ++ spaces (3 - ("BB" : String).length) ++ "\n"] } :=
  C1_newline_commit.1
    { last_len := 3, acc := "BB",
      sup := { sup_on := false, in_tb := false }, writes := [] }
    rfl (by decide)

/-- C3: once suppressing is on, `_process_traceback_line` behaves exactly as
the specified committed-line automaton (Traceback header opens the block and
is dropped, lines inside the block are dropped, a KeyboardInterrupt line
closes it and is dropped, all else passes unchanged) — stated as extensional
agreement with `specTracebackFilter`, where a drop surfaces as the empty
string the caller discards; and the filter is applied only at newline
resolution: processing any non-newline character leaves the suppression
state untouched, while the newline step applies exactly the filter. -/
theorem C3_traceback_filter :
    (∀ line : String, ∀ inside : Bool,
      process_traceback_line line { sup_on := true, in_tb := inside } =
        (match specTracebackFilter line inside with
         | (none, b) => ("", { sup_on := true, in_tb := b })
         | (some l, b) => (l, { sup_on := true, in_tb := b })))
    ∧ (∀ st : StreamSt, ∀ c : Char, c ≠ '\n' → (streamChar st c).sup = st.sup)
    ∧ (∀ st : StreamSt,
        (streamChar st '\n').sup = (process_traceback_line st.acc st.sup).2) := by
  refine ⟨?_, ?_, ?_⟩
  · intro line inside
    simp only [process_traceback_line, specTracebackFilter]
    cases hT : strStarts "Traceback (most recent call last):" line <;>
      cases hK : strHasSub "KeyboardInterrupt" line <;>
        cases inside <;> simp [hT, hK]
  · intro st c hc
    by_cases h1 : c = '\r'
    · subst h1; simp [streamChar]
    · simp [streamChar, h1, hc]
  · intro st
    simp [streamChar]

/-- C3 witness: the non-newline clause of `C3_traceback_filter` evaluated at
the character x. -/
theorem C3_traceback_filter_witness :
    (streamChar { last_len := 0, acc := "",
                  sup := { sup_on := true, in_tb := true }, writes := [] } 'x').sup =
      ({ last_len := 0, acc := "",
         sup := { sup_on := true, in_tb := true }, writes := [] } : StreamSt).sup :=
  C3_traceback_filter.2.1
    { last_len := 0, acc := "",
      sup := { sup_on := true, in_tb := true }, writes := [] } 'x' (by decide)

/-- C5: for every option count n >= 1 and index 0 <= i < n, the navigation
handler maps Up/k to (i-1) mod n, Down/j to (i+1) mod n, Left/h to
max(0, i-1) and Right/l to min(n-1, i+1); on a 3-option menu from index 0,
Down-Down-Enter chooses 2 and Down-Down-Down-Enter wraps to 0; on a 2-option
menu Left from 0 stays 0 and Right from 1 stays 1. -/
theorem C5_navigation :
    (∀ i n : Int, 1 ≤ n → 0 ≤ i → i < n →
      handle_navigation_key "UP" i (n - 1) = some ((i - 1) % n)
      ∧ handle_navigation_key "k" i (n - 1) = some ((i - 1) % n)
      ∧ handle_navigation_key "DOWN" i (n - 1) = some ((i + 1) % n)
      ∧ handle_navigation_key "j" i (n - 1) = some ((i + 1) % n)
      ∧ handle_navigation_key "LEFT" i (n - 1) = some (max 0 (i - 1))
      ∧ handle_navigation_key "h" i (n - 1) = some (max 0 (i - 1))
      ∧ handle_navigation_key "RIGHT" i (n - 1) = some (min (n - 1) (i + 1))
      ∧ handle_navigation_key "l" i (n - 1) = some (min (n - 1) (i + 1)))
    ∧ choose_keyed_loop ["DOWN", "DOWN", "ENTER"] 0 2 = ChooseOutcome.chosen 2
    ∧ choose_keyed_loop ["DOWN", "DOWN", "DOWN", "ENTER"] 0 2 = ChooseOutcome.chosen 0
    ∧ choose_keyed_loop ["LEFT", "ENTER"] 0 1 = ChooseOutcome.chosen 0
    ∧ choose_keyed_loop ["RIGHT", "ENTER"] 1 1 = ChooseOutcome.chosen 1 := by
  refine ⟨?_, by decide, by decide, by decide, by decide⟩
  intro i n h1 h2 h3
  have hn : n - 1 + 1 = n := by omega
  refine ⟨?_, ?_, ?_, ?_, ?_, ?_, ?_, ?_⟩ <;> simp [handle_navigation_key, hn]

/-- C5 witness: the navigation equations evaluated at i = 1, n = 3. -/
theorem C5_navigation_witness :
    handle_navigation_key "UP" 1 (3 - 1) = some ((1 - 1) % 3) :=
  (C5_navigation.1 1 3 (by norm_num) (by norm_num) (by norm_num)).1

/-- C2 counterexample: in the pipe strategy, with group signalling available,
the second interrupt issues `proc.kill()`, a SIGKILL aimed at the child
process alone, not at the process group the claim names as the target. -/
theorem C2_counterexample :
    (handle_sigint_pipe true 1).sent =
      some { target := Target.childOnly, sig := SIGKILL }
    ∧ Target.childOnly ≠ Target.group := by
  decide

/-- C2 (amended): every interrupt raises the count by one (so the level never
decreases); the first interrupt emits the notice, sends SIGTERM to the
process group when group signalling is available (else to the child alone),
and in pipe mode sets suppressing; every further interrupt sends SIGKILL —
in the PTY strategy to the process group (falling back to the child), but in
the pipe strategy always to the child process alone. -/
theorem C2_interrupt_escalation :
    (∀ hk : Bool, ∀ c : Nat, (handle_sigint_pipe hk c).count = c + 1)
    ∧ (∀ pk : Bool, ∀ c : Nat, (handle_sigint_pty pk c).count = c + 1)
    ∧ (∀ hk : Bool, handle_sigint_pipe hk 0 =
        { count := 1, notice := true, setSuppress := true,
          sent := some { target := if hk then Target.group else Target.childOnly,
                         sig := SIGTERM } })
    ∧ (∀ pk : Bool, handle_sigint_pty pk 0 =
        { count := 1, notice := true, sent := kill_process pk SIGTERM })
    ∧ (∀ hk : Bool, ∀ c : Nat, 1 ≤ c → (handle_sigint_pipe hk c).sent =
        some { target := Target.childOnly, sig := SIGKILL })
    ∧ (∀ pk : Bool, ∀ c : Nat, 1 ≤ c →
        (handle_sigint_pty pk c).sent = kill_process pk SIGKILL) := by
  refine ⟨?_, ?_, ?_, ?_, ?_, ?_⟩
  · intro hk c
    simp only [handle_sigint_pipe]
    by_cases h : c + 1 = 1 <;> simp [h]
  · intro pk c
    simp only [handle_sigint_pty]
    by_cases h : c + 1 = 1 <;> simp [h]
  · intro hk; rfl
  · intro pk; rfl
  · intro hk c hc
    simp only [handle_sigint_pipe]
    rw [if_neg (by omega)]
  · intro pk c hc
    simp only [handle_sigint_pty]
    rw [if_neg (by omega)]

/-- C2 witness: the forced-kill clause of `C2_interrupt_escalation` for the
PTY strategy evaluated at the second interrupt. -/
theorem C2_interrupt_escalation_witness :
    (handle_sigint_pty true 1).sent = kill_process true SIGKILL :=
  C2_interrupt_escalation.2.2.2.2.2 true 1 (by norm_num)

/-- C4 counterexample: a child killed by SIGTERM (wait status 15) yields
exit code 130 from the PTY strategy and -15 from the pipe strategy, neither
of which is 128 + 15 = 143 as the claim requires. -/
theorem C4_counterexample :
    stream_pty_exit 15 = 130 ∧ (130 : Nat) ≠ 128 + 15
    ∧ run_and_stream_result 15 = -15 ∧ (-15 : Int) ≠ 128 + 15 := by
  decide

/-- C4 (amended): on a normal child exit both strategies return the child's
exit status; when the child terminated due to a signal the PTY strategy
returns the fixed code 130 regardless of the signal, and the pipe strategy
returns the negated signal number (Popen's returncode); no separate signaled
flag is reported. -/
theorem C4_exit_mapping :
    (∀ s : Nat, WIFEXITED s = true →
      stream_pty_exit s = WEXITSTATUS s
      ∧ run_and_stream_result s = (WEXITSTATUS s : Int))
    ∧ (∀ s : Nat, WIFEXITED s = false →
      stream_pty_exit s = 130
      ∧ run_and_stream_result s = -(WTERMSIG s : Int)) := by
  constructor
  · intro s h
    refine ⟨by simp [stream_pty_exit, h], ?_⟩
    simp only [run_and_stream_result, popen_returncode, h, if_true]
    split_ifs with h0
    · exact h0.symm
    · rfl
  · intro s h
    have hm : s % 128 ≠ 0 := by
      intro hh
      simp [WIFEXITED, hh] at h
    have ht : ¬ (-(WTERMSIG s : Int) = 0) := by
      simp only [WTERMSIG, neg_eq_zero]
      exact_mod_cast hm
    refine ⟨by simp [stream_pty_exit, h], ?_⟩
    simp [run_and_stream_result, popen_returncode, h, ht]

/-- C4 witness: the normal-exit clause of `C4_exit_mapping` evaluated at
wait status 512 (exit code 2). -/
theorem C4_exit_mapping_witness :
    stream_pty_exit 512 = WEXITSTATUS 512
    ∧ run_and_stream_result 512 = (WEXITSTATUS 512 : Int) :=
  C4_exit_mapping.1 512 rfl

/-- C6 counterexample: with the default index that `choose_keyed` always
passes, an empty input line makes `prompt_choice` return (index 0 here)
although no input line was a valid 1-based selection — indeed no input line
was even a digit string — contradicting the claim that the prompt loops
until a valid selection is entered. -/
theorem C6_counterexample :
    prompt_choice [""] ["a", "b", "c"] (some 0) = some 0
    ∧ ¬ ∃ l ∈ ([""] : List String), isDigitStr (pyStrip l) = true := by
  decide

/-- C6 (amended): the non-interactive fallback reads lines and loops until
either a valid 1-based selection v (1 <= v <= n) is entered — returning
v - 1 — or an empty line is entered while a default index is provided,
returning that default; any other line (non-numeric shown here) is rejected
and the loop continues. Simulated input "2" on a 3-option list returns 1. -/
theorem C6_fallback :
    (∀ opts rest : List String, ∀ dflt : Option Nat, ∀ raw : String,
      pyStrip raw ≠ "" → isDigitStr (pyStrip raw) = true →
      1 ≤ natOfDigits (pyStrip raw) → natOfDigits (pyStrip raw) ≤ opts.length →
      prompt_choice (raw :: rest) opts dflt = some (natOfDigits (pyStrip raw) - 1))
    ∧ (∀ opts rest : List String, ∀ dflt : Option Nat, ∀ raw : String,
      isDigitStr (pyStrip raw) = false → (pyStrip raw = "" → dflt = none) →
      prompt_choice (raw :: rest) opts dflt = prompt_choice rest opts dflt)
    ∧ choose_keyed false [] ["2"] ["a", "b", "c"] 0 = ChooseOutcome.chosen 1 := by
  refine ⟨?_, ?_, by decide⟩
  · intro opts rest dflt raw h1 h2 h3 h4
    simp only [prompt_choice]
    rw [if_neg (fun hh => h1 hh.1), if_pos h2,
      if_pos (⟨by omega, by omega⟩ :
        0 ≤ (natOfDigits (pyStrip raw) : Int) - 1
        ∧ (natOfDigits (pyStrip raw) : Int) - 1 < (opts.length : Int))]
    congr 1
    omega
  · intro opts rest dflt raw h1 h2
    simp only [prompt_choice]
    rw [if_neg ?hne, if_neg ?hd]
    case hd => simp [h1]
    case hne =>
      intro hh
      rw [h2 hh.1] at hh
      simp at hh

/-- C6 witness: the valid-selection clause of `C6_fallback` evaluated at
input line "2" on a 3-option list. -/
theorem C6_fallback_witness :
    prompt_choice ["2"] ["a", "b", "c"] none = some (natOfDigits (pyStrip "2") - 1) :=
  C6_fallback.1 ["a", "b", "c"] [] none "2" (by decide) (by decide) (by decide)
    (by decide)

/-- C7 counterexample: on spawn failure the pipe strategy returns 127 and
writes an explanatory message — but every write, the explanatory message
included, goes to standard output; nothing is written on the error stream,
contradicting the claim's placement of the message. -/
theorem C7_counterexample :
    (run_and_stream_spawn_failure "uv" "").1 = 127
    ∧ (run_and_stream_spawn_failure "uv" "").2.filter
        (fun w => w.1 == Chan.err) = []
    ∧ (Chan.out, "Error: failed to spawn 'uv'. Is it installed?\n")
        ∈ (run_and_stream_spawn_failure "uv" "").2
    ∧ Chan.out ≠ Chan.err := by
  decide

/-- C7 (amended): only the pipe strategy yields exit code 127 with an
explanatory message on spawn failure, and that message goes to standard
output — nothing is written on the error stream. In the PTY strategy the
exec-failed child exits silently, after which every relay iteration finds
the master side readable with an empty read, and `_stream_pty_output`
returns None before its waitpid poll — even while the dead child is
reapable — so the relay loop never terminates: across every finite window
of such iterations it delivers no exit code (in particular not 127) and
relays nothing. -/
theorem C7_spawn_failure :
    (∀ program argsLine : String,
      (run_and_stream_spawn_failure program argsLine).1 = 127
      ∧ (run_and_stream_spawn_failure program argsLine).2.filter
          (fun w => w.1 == Chan.err) = []
      ∧ (Chan.out, "Error: failed to spawn '" ++ program ++ "'. Is it installed?\n")
          ∈ (run_and_stream_spawn_failure program argsLine).2)
    ∧ (∀ ev : PtyIoEvent, ev.readable = true → ev.dataRead = "" →
        stream_pty_output ev = (none, []))
    ∧ (∀ evs : List PtyIoEvent, ∀ acc : List String,
        (∀ ev ∈ evs, ev.readable = true ∧ ev.dataRead = "") →
        run_pty_loop evs acc = (none, acc)) := by
  refine ⟨?_, ?_, ?_⟩
  · intro program argsLine
    refine ⟨rfl, ?_, ?_⟩ <;> simp [run_and_stream_spawn_failure]
  · intro ev h1 h2
    simp [stream_pty_output, h1, h2]
  · intro evs
    induction evs with
    | nil => intro acc h; rfl
    | cons ev rest ih =>
      intro acc h
      have h1 := h ev (List.mem_cons_self ev rest)
      have hs : stream_pty_output ev = (none, []) := by
        simp [stream_pty_output, h1.1, h1.2]
      simp only [run_pty_loop, hs, List.append_nil]
      exact ih acc (fun e he => h e (List.mem_cons_of_mem ev he))

/-- C7 witness: the relay loop of `C7_spawn_failure` observed for two
iterations after a silent exec-failed child has exited — the master stays
readable at EOF and the reapable child (wait status 127 * 256) is never
reaped, so no exit code is delivered and nothing is relayed. -/
theorem C7_spawn_failure_witness :
    run_pty_loop
      [{ readable := true, dataRead := "", reaped := true, status := 127 * 256 },
       { readable := true, dataRead := "", reaped := true, status := 127 * 256 }]
      [] = (none, []) :=
  C7_spawn_failure.2.2
    [{ readable := true, dataRead := "", reaped := true, status := 127 * 256 },
     { readable := true, dataRead := "", reaped := true, status := 127 * 256 }]
    [] (by decide)

/-- C8 counterexample: a pipe-strategy run started with an external SIGINT
disposition ends with the supervisor's handler still installed — the
process-global state after the run differs from the state before it. -/
theorem C8_counterexample :
    finalHandler (SigHandler.external 0)
      (run_and_stream_sigint_calls (SigHandler.external 0)) = SigHandler.pipeSup
    ∧ SigHandler.pipeSup ≠ SigHandler.external 0 := by
  decide

/-- C8 (amended): the PTY strategy installs its handler and restores the
prior disposition on exit, so the state after the run equals the state
before it; the pipe strategy installs its handler for the run but performs
no restoring call, leaving its handler installed afterwards. -/
theorem C8_handler_scoping :
    ∀ h0 : SigHandler,
      finalHandler h0 (run_with_pty_sigint_calls h0) = h0
      ∧ (run_with_pty_sigint_calls h0).head? = some SigHandler.ptySup
      ∧ finalHandler h0 (run_and_stream_sigint_calls h0) = SigHandler.pipeSup :=
  fun _ => ⟨rfl, rfl, rfl⟩

/-- C8 witness: `C8_handler_scoping` evaluated at an external disposition. -/
theorem C8_handler_scoping_witness :
    finalHandler (SigHandler.external 7)
      (run_with_pty_sigint_calls (SigHandler.external 7)) = SigHandler.external 7
    ∧ (run_with_pty_sigint_calls (SigHandler.external 7)).head? =
        some SigHandler.ptySup
    ∧ finalHandler (SigHandler.external 7)
        (run_and_stream_sigint_calls (SigHandler.external 7)) = SigHandler.pipeSup :=
  C8_handler_scoping (SigHandler.external 7)

/-- C9 counterexample: with identical wizard answers, `build_command` run
against a filesystem where a pyproject.toml is found picks the program uv,
and against one where none is found picks subtitle-gen — the result depends
on external filesystem state, refuting independence from external state. -/
theorem C9_counterexample :
    (build_command (fun _ => true) [] true "videos" none "zh"
        false false none none).1 = "uv"
    ∧ (build_command (fun _ => false) [] true "videos" none "zh"
        false false none none).1 = "subtitle-gen"
    ∧ ("uv" : String) ≠ "subtitle-gen" := by
  refine ⟨rfl, rfl, by decide⟩

/-- C9 (amended): `build_command` is a deterministic function of the wizard
answers together with the external state it reads — the working directory
and the filesystem — and it depends on that external state only through the
`find_pyproject_dir` probe: any two filesystems on which the probe agrees
yield identical (program, argument-list, working-directory) results. -/
theorem C9_build_command_deterministic :
    ∀ fsa fsb : List String → Bool, ∀ cwd : List String,
      find_pyproject_dir fsa cwd = find_pyproject_dir fsb cwd →
      ∀ (mode_local : Bool) (src_path : String) (yt_url : Option String)
        (lang_code : String) (overwrite burn_in : Bool)
        (burn_use burn_format : Option String),
        build_command fsa cwd mode_local src_path yt_url lang_code overwrite
            burn_in burn_use burn_format =
          build_command fsb cwd mode_local src_path yt_url lang_code overwrite
            burn_in burn_use burn_format := by
  intro fsa fsb cwd h mode_local src_path yt_url lang_code overwrite burn_in
    burn_use burn_format
  simp only [build_command, h]

/-- C9 witness: `C9_build_command_deterministic` applied to two distinct
filesystem predicates on which the pyproject probe agrees. -/
theorem C9_build_command_deterministic_witness :
    build_command (fun l => l.isEmpty) ["a"] true "videos" none "zh"
        false false none none =
      build_command (fun l => l.length == 0) ["a"] true "videos" none "zh"
        false false none none :=
  C9_build_command_deterministic (fun l => l.isEmpty) (fun l => l.length == 0)
    ["a"] rfl true "videos" none "zh" false false none none

/-- C10: in the non-interactive fallback, `choose_keyed` passes its initial
index to `prompt_choice` as the default selection, so an empty input line
returns the initial index without any digit having been entered. -/
theorem C10_default_on_empty :
    ∀ keys rest opts : List String, ∀ idx : Nat,
      choose_keyed false keys ("" :: rest) opts idx = ChooseOutcome.chosen (idx : Int)
      ∧ prompt_choice ("" :: rest) opts (some idx) = some idx := by
  intro keys rest opts idx
  have h0 : pyStrip "" = "" := rfl
  have hp : prompt_choice ("" :: rest) opts (some idx) = some idx := by
    simp [prompt_choice, h0]
  exact ⟨by simp [choose_keyed, hp], hp⟩

/-- C10 witness: `C10_default_on_empty` evaluated at initial index 1 on a
2-option list. -/
theorem C10_default_on_empty_witness :
    choose_keyed false [] ("" :: []) ["a", "b"] 1 =
      ChooseOutcome.chosen ((1 : Nat) : Int)
    ∧ prompt_choice ("" :: []) ["a", "b"] (some 1) = some 1 :=
  C10_default_on_empty [] [] ["a", "b"] 1

end STui
